import Mathlib

/-!
Verification of the preference-persistence and notification-scheduling core of
the VETROScript GUI (`src/gui.pyw`).

The preference document `user_prefs.json` is a JSON object; we embed JSON
values as an inductive type and the document as an insertion-ordered
association list, matching a Python `dict` of string keys (insertion order
kept, assignment replaces in place).
-/

set_option autoImplicit false

/-- JSON values as stored in `user_prefs.json` (JSON-safe Python data:
`None`, `bool`, `int`, `str`, `list`, `dict`). -/
inductive Json where
  | null
  | bool (b : Bool)
  | num (n : Int)
  | str (s : String)
  | arr (elems : List Json)
  | obj (fields : List (String × Json))

/-- A JSON object / Python dict with string keys, as an insertion-ordered
association list. -/
abbrev Doc := List (String × Json)

/-- Python `d.get(k)` / `d[k]` lookup: first (unique) binding of the key. -/
def Doc.find : Doc → String → Option Json
  | [], _ => none
  | (k', v) :: rest, k => if k' = k then some v else Doc.find rest k

/-- Python `d[k] = v`: replace the binding in place if the key is present,
else append the new binding (dict insertion order). -/
def Doc.insert : Doc → String → Json → Doc
  | [], k, v => [(k, v)]
  | (k', v') :: rest, k, v =>
      if k' = k then (k, v) :: rest else (k', v') :: Doc.insert rest k v

/-- Python truthiness `bool(x)` on a JSON value. -/
def Json.pyBool : Json → Bool
  | .null => false
  | .bool b => b
  | .num n => decide (n ≠ 0)
  | .str s => decide (s ≠ "")
  | .arr elems => !elems.isEmpty
  | .obj fields => !fields.isEmpty

/-- Python `int(x)` on a JSON value: identity on ints, `0`/`1` on bools,
digit-parse on strings, and a raised `TypeError`/`ValueError` otherwise. -/
def Json.pyInt : Json → Except String Int
  | .bool b => .ok (if b then 1 else 0)
  | .num n => .ok n
  | .str s =>
      match s.trim.toInt? with
      | some n => .ok n
      | none => .error "invalid literal for int() with base 10"
  | .null => .error "int() argument must not be None"
  | .arr _ => .error "int() argument must not be a list"
  | .obj _ => .error "int() argument must not be a dict"

/-- Modelled from the spec: `get_pref(name, default)` of `modules.config`
(generic scalar accessor used by the scheduler and feature flags; the module
itself is not under `src/`) — reads key `name` from the preference document,
returning `default` when the key is absent. Per spec §4.3 every call goes
load → merge → save on the single document, so we thread the document. -/
def get_pref (d : Doc) (name : String) (dflt : Json) : Json :=
  (d.find name).getD dflt

/-- Modelled from the spec: `set_pref(name, value)` of `modules.config` —
read-modify-write merge of one scalar key into the preference document
(spec §3/§4.3: the document is merged, never replaced wholesale). -/
def set_pref (d : Doc) (name : String) (v : Json) : Doc :=
  d.insert name v

/-- A popup request as issued through `_ui_show_mouse_popover` in
`src/gui.pyw`: the auto-close delay in ms (0 = requires manual close) and
whether a "Do not show again" control is offered. -/
structure PopupRequest where
  dismissAfterMs : Nat
  includeDontShow : Bool
deriving DecidableEq, Repr

/-- From `_ui_show_mouse_popover` (gui.pyw line 72): the popup auto-dismisses
iff `dismiss_after_ms` is nonzero and no "Do not show again" button is shown. -/
def PopupRequest.autoDismisses (p : PopupRequest) : Bool :=
  decide (p.dismissAfterMs ≠ 0) && !p.includeDontShow

/-- The soft reminder issued on the 5th run (gui.pyw lines 101-107):
auto-dismiss after 10s, no suppression control. -/
def softReminder : PopupRequest := ⟨10000, false⟩

/-- The strong reminder issued on runs 10, 15, 20, … (gui.pyw lines 108-119):
manual dismissal (`dismiss_after_ms=0`), "Do not show again" offered. -/
def strongReminder : PopupRequest := ⟨0, true⟩

/-- `_maybe_show_logs_nag` (gui.pyw lines 76-119), the run-event handler.
Returns the preference document after the call together with the control
outcome: `Except.ok p` with the popup request issued (if any), or
`Except.error` when the Python `int()` coercion of the stored counter raises
(the only raise point; it precedes every write, so the document is unchanged
on that path). -/
def maybe_show_logs_nag (d : Doc) : Doc × Except String (Option PopupRequest) :=
  -- suppress = bool(cfg.get_pref("suppress_logs_nag", False)); if suppress: return
  if (get_pref d "suppress_logs_nag" (Json.bool false)).pyBool then (d, Except.ok none)
  else
    -- clicked = bool(cfg.get_pref("logs_clicked_once", False))
    -- runs = int(cfg.get_pref("runs_without_logs_click", 0))
    match (get_pref d "runs_without_logs_click" (Json.num 0)).pyInt with
    | .error e => (d, Except.error e)
    | .ok runs0 =>
        -- if clicked: return
        if (get_pref d "logs_clicked_once" (Json.bool false)).pyBool then (d, Except.ok none)
        else
          -- runs += 1; cfg.set_pref("runs_without_logs_click", runs)
          let runs : Int := runs0 + 1
          let d2 := set_pref d "runs_without_logs_click" (Json.num runs)
          if runs = 5 then (d2, Except.ok (some softReminder))
          else if 10 ≤ runs ∧ runs % 5 = 0 then (d2, Except.ok (some strongReminder))
          else (d2, Except.ok none)

/-- The `_never` callback of the strong reminder (gui.pyw lines 110-111):
`cfg.set_pref("suppress_logs_nag", True)`. -/
def on_never_again (d : Doc) : Doc :=
  set_pref d "suppress_logs_nag" (Json.bool true)

/-- `PeerCheckGUI._on_toggle_logs` (gui.pyw lines 616-639), the
acknowledge-event handler, for checkbox value `val`. Returns the document
after the call and whether the one-time informational popover was shown.
(The runtime-only `modules.config.WRITE_LOG_FILE = val` assignment is not
persisted state and is omitted; popover exceptions are swallowed in source.) -/
def on_toggle_logs (val : Bool) (d : Doc) : Doc × Bool :=
  -- modules.config.set_pref("include_logs", val)
  let d1 := set_pref d "include_logs" (Json.bool val)
  -- if not modules.config.get_pref("logs_clicked_once", False): ...
  if (get_pref d1 "logs_clicked_once" (Json.bool false)).pyBool then (d1, false)
  else
    -- popover shown, then latch and reset the counter
    let d2 := set_pref d1 "logs_clicked_once" (Json.bool true)
    let d3 := set_pref d2 "runs_without_logs_click" (Json.num 0)
    (d3, true)

/-- Document after one run event: `_maybe_show_logs_nag` threaded on the
persisted document (on the raising path no write has happened yet, so the
document component is the input document). -/
def run_event_doc (d : Doc) : Doc :=
  (maybe_show_logs_nag d).1

/-- The persisted state named by the escalation property:
`run_count=0, acknowledged=false, suppressed=false`. -/
def initDoc : Doc :=
  [("runs_without_logs_click", Json.num 0),
   ("logs_clicked_once", Json.bool false),
   ("suppress_logs_nag", Json.bool false)]

/-- The document after `n` run events starting from `initDoc`. -/
def nag_trace : Nat → Doc
  | 0 => initDoc
  | n + 1 => run_event_doc (nag_trace n)

/-- Outcome of the `k`-th run-event call (1-indexed) starting from `initDoc`. -/
def popupAtCall (k : Nat) : Except String (Option PopupRequest) :=
  (maybe_show_logs_nag (nag_trace (k - 1))).2

/-!
Model of `user_prefs.json` on disk, for `_load_prefs_json` / `_save_prefs_json`
(gui.pyw lines 342-373). The file content is modelled at the level of what it
parses to: `json.dump` / `json.load` are mutually inverse on JSON-safe data,
so a well-formed file is carried as its parsed `Json` value, and the failure
modes of the load contract (absent, unreadable, invalid JSON) are explicit
constructors.
-/

/-- Content of the target path on disk. -/
inductive FileContent where
  | absent
  /-- The file exists but `open`/read raises (permissions, I/O error). -/
  | unreadable
  /-- The file exists and reads, but `json.load` raises (not valid JSON). -/
  | invalid
  /-- The file exists and parses to the JSON value `j`. -/
  | json (j : Json)

/-- The `try:` block of `_load_prefs_json` (gui.pyw lines 346-350):
`Except` is Python exception propagation inside the `try`; the inner `Option`
is whether the block hit a `return` (it does not when the file is absent,
falling through to the final `return {}`). -/
def load_prefs_body (c : FileContent) : Except Unit (Option Doc) :=
  match c with
  | .absent => .ok none                 -- os.path.exists(path) is False
  | .unreadable => .error ()            -- open(...) raises
  | .invalid => .error ()               -- json.load(f) raises
  | .json j =>
      match j with
      | .obj fields => .ok (some fields)  -- data if isinstance(data, dict)
      | _ => .ok (some [])                -- ... else {}

/-- `_load_prefs_json` (gui.pyw lines 342-353): returns `{}` when the file is
missing or invalid, the parsed object otherwise; the bare `except: pass`
absorbs every exception, so the function itself never raises (it is total). -/
def load_prefs_json (c : FileContent) : Doc :=
  match load_prefs_body c with
  | .ok (some d) => d
  | .ok none => []       -- fell through the try block: return {}
  | .error _ => []       -- except Exception: pass; return {}

/-- Injected filesystem failures for one `_save_prefs_json` call: whether
`json.dump` fails mid-serialization and whether `os.replace` fails. -/
structure SaveFailure where
  dumpFails : Bool
  replaceFails : Bool

/-- Result of one `_save_prefs_json` call: content of the target path, whether
this call's temporary file remains in the target directory, and whether an
exception propagated to the caller. -/
structure SaveResult where
  target : FileContent
  tempRemains : Bool
  outcome : Except Unit Unit

/-- `_save_prefs_json` (gui.pyw lines 356-373): create a temporary file in the
target's directory (`tempfile.mkstemp`), `json.dump` the document into it,
atomically `os.replace` it over the target, and in a `finally:` block remove
the temporary file if it still exists. -/
def save_prefs_json (fail : SaveFailure) (prefs : Doc) (target : FileContent) : SaveResult :=
  -- fd, tmp = tempfile.mkstemp(...): the temp file now exists
  -- try: json.dump(prefs, f); os.replace(tmp, path)
  let afterTry : FileContent × Bool × Except Unit Unit :=
    if fail.dumpFails then (target, true, Except.error ())
    else if fail.replaceFails then (target, true, Except.error ())
    else (FileContent.json (Json.obj prefs), false, Except.ok ())
  -- finally: if os.path.exists(tmp): os.remove(tmp)
  let tempFinal := if afterTry.2.1 then false else afterTry.2.1
  ⟨afterTry.1, tempFinal, afterTry.2.2⟩

/-- The persistence step of `SettingsDialog._apply` (gui.pyw lines 271-278):
`prefs = _load_prefs() or {}; prefs["settings"] = payload; _save_prefs(prefs)`.
The `modules.config` helpers `_load_prefs`/`_save_prefs` are not under `src/`;
per the source comment at line 261 they target the same `user_prefs.json`,
so they are modelled by the in-repo `_load_prefs_json`/`_save_prefs_json`. -/
def settings_dialog_apply_persist (fail : SaveFailure) (payload : Doc) (target : FileContent) :
    SaveResult :=
  let prefs := load_prefs_json target
  -- `_cfg._load_prefs() or {}`: an empty (falsy) dict is replaced by {}
  let prefs := if prefs.isEmpty then ([] : Doc) else prefs
  let prefs2 := Doc.insert prefs "settings" (Json.obj payload)
  save_prefs_json fail prefs2 target

/-- The fixed allow-list `WHITELIST` of `_collect_current_settings_for_prefs`
(gui.pyw lines 297-311): the GUI-exposed option names persisted under
`settings`. -/
def WHITELIST : List String :=
  ["SHOW_ALL_SHEETS",
   "LOG_SHOW_ABBREV_HEADER",
   "LOG_INCLUDE_WALK_PATH",
   "LOG_DETAIL",
   "OUTPUT_XLSX",
   "ID_COL",
   "LOG_ABBREV_HEADER_LINES",
   "PATTERNS"]

/-- `_collect_current_settings_for_prefs` (gui.pyw lines 289-321): snapshot of
every allow-listed attribute present on the in-memory configuration (the
configuration is modelled as a mapping from attribute name to JSON-safe value;
the tuple-to-list conversion is the identity here since `Json.arr` already
covers both). -/
def collect_current_settings_for_prefs (config : Doc) : Doc :=
  WHITELIST.foldl
    (fun snap key =>
      match Doc.find config key with
      | some v => Doc.insert snap key v   -- if hasattr(cfg, key): snap[key] = val
      | none => snap)
    []

/-- `PeerCheckGUI._apply_settings_from_prefs_on_startup` (gui.pyw lines
584-594): load the prefs, take `prefs.get("settings") or {}`, and `setattr`
every key/value found there onto the configuration (`try/except pass` around
each `setattr` only; `.items()` on a truthy non-dict value raises, which
nothing catches, hence the `Except`). -/
def apply_settings_from_prefs_on_startup (prefs : Doc) (config : Doc) :
    Except String Doc :=
  let settingsVal := (Doc.find prefs "settings").getD Json.null
  let settingsVal := if settingsVal.pyBool then settingsVal else Json.obj []
  match settingsVal with
  | .obj fields =>
      .ok (fields.foldl (fun c kv => Doc.insert c kv.1 kv.2) config)
  | _ => .error "object has no attribute items"

/-!
Basic lemmas about the document model and the handlers.
-/

theorem Doc.find_insert_self (d : Doc) (k : String) (v : Json) :
    (Doc.insert d k v).find k = some v := by
  induction d with
  | nil => simp [Doc.insert, Doc.find]
  | cons hd tl ih =>
      obtain ⟨k', v'⟩ := hd
      by_cases h : k' = k
      · simp [Doc.insert, Doc.find, h]
      · simp [Doc.insert, Doc.find, h, ih]

theorem Doc.find_insert_ne (d : Doc) (k k2 : String) (v : Json) (h : k2 ≠ k) :
    (Doc.insert d k v).find k2 = d.find k2 := by
  induction d with
  | nil => simp [Doc.insert, Doc.find, Ne.symm h]
  | cons hd tl ih =>
      obtain ⟨k', v'⟩ := hd
      by_cases hk : k' = k
      · subst hk
        have hne : ¬ k' = k2 := fun hc => h hc.symm
        simp [Doc.insert, Doc.find, hne]
      · by_cases hk2 : k' = k2
        · simp [Doc.insert, Doc.find, hk, hk2, h]
        · simp [Doc.insert, Doc.find, hk, hk2, ih]

theorem get_pref_set_pref_self (d : Doc) (k : String) (v dflt : Json) :
    get_pref (set_pref d k v) k dflt = v := by
  simp [get_pref, set_pref, Doc.find_insert_self]

theorem get_pref_set_pref_ne (d : Doc) (k k2 : String) (v dflt : Json) (h : k2 ≠ k) :
    get_pref (set_pref d k v) k2 dflt = get_pref d k2 dflt := by
  simp [get_pref, set_pref, Doc.find_insert_ne d k k2 v h]

theorem nag_eq_of_suppressed (d : Doc)
    (hs : (get_pref d "suppress_logs_nag" (Json.bool false)).pyBool = true) :
    maybe_show_logs_nag d = (d, Except.ok none) := by
  unfold maybe_show_logs_nag
  simp [hs]

theorem nag_eq_of_clicked (d : Doc)
    (hc : (get_pref d "logs_clicked_once" (Json.bool false)).pyBool = true)
    (n : Int) (hr : get_pref d "runs_without_logs_click" (Json.num 0) = Json.num n) :
    maybe_show_logs_nag d = (d, Except.ok none) := by
  unfold maybe_show_logs_nag
  by_cases hs : (get_pref d "suppress_logs_nag" (Json.bool false)).pyBool
  · simp [hs]
  · simp [hs, hr, Json.pyInt, hc]

theorem nag_noop_of_latched (d : Doc)
    (h : (get_pref d "suppress_logs_nag" (Json.bool false)).pyBool = true ∨
         (get_pref d "logs_clicked_once" (Json.bool false)).pyBool = true) :
    (maybe_show_logs_nag d).1 = d ∧
      ∀ p, (maybe_show_logs_nag d).2 = Except.ok p → p = none := by
  unfold maybe_show_logs_nag
  by_cases hs : (get_pref d "suppress_logs_nag" (Json.bool false)).pyBool
  · simp [hs]
  · have hc : (get_pref d "logs_clicked_once" (Json.bool false)).pyBool = true := by
      rcases h with h | h
      · exact absurd h hs
      · exact h
    cases hp : (get_pref d "runs_without_logs_click" (Json.num 0)).pyInt with
    | error e => simp [hs, hp]
    | ok n => simp [hs, hp, hc]

theorem on_toggle_logs_of_not_clicked (val : Bool) (d : Doc)
    (h : (get_pref d "logs_clicked_once" (Json.bool false)).pyBool = false) :
    on_toggle_logs val d =
      (set_pref (set_pref (set_pref d "include_logs" (Json.bool val))
          "logs_clicked_once" (Json.bool true)) "runs_without_logs_click" (Json.num 0),
       true) := by
  unfold on_toggle_logs
  have h1 : (get_pref (set_pref d "include_logs" (Json.bool val))
      "logs_clicked_once" (Json.bool false)).pyBool = false := by
    rwa [get_pref_set_pref_ne d "include_logs" "logs_clicked_once"
      (Json.bool val) (Json.bool false) (by decide)]
  simp [h1]

theorem on_toggle_logs_of_clicked (val : Bool) (d : Doc)
    (h : (get_pref d "logs_clicked_once" (Json.bool false)).pyBool = true) :
    on_toggle_logs val d = (set_pref d "include_logs" (Json.bool val), false) := by
  unfold on_toggle_logs
  have h1 : (get_pref (set_pref d "include_logs" (Json.bool val))
      "logs_clicked_once" (Json.bool false)).pyBool = true := by
    rwa [get_pref_set_pref_ne d "include_logs" "logs_clicked_once"
      (Json.bool val) (Json.bool false) (by decide)]
  simp [h1]

/-- After a first toggle, the latched document is a fixed point of the run
event and every later run event produces no popup. -/
theorem toggle_then_run_events_inert (val : Bool) (d : Doc)
    (h : (get_pref d "logs_clicked_once" (Json.bool false)).pyBool = false) :
    (∀ n, run_event_doc^[n] (on_toggle_logs val d).1 = (on_toggle_logs val d).1) ∧
    (∀ n, (maybe_show_logs_nag (run_event_doc^[n] (on_toggle_logs val d).1)).2 =
      Except.ok none) := by
  rw [on_toggle_logs_of_not_clicked val d h]
  set d3 := set_pref (set_pref (set_pref d "include_logs" (Json.bool val))
      "logs_clicked_once" (Json.bool true)) "runs_without_logs_click" (Json.num 0) with hd3
  have hclicked : get_pref d3 "logs_clicked_once" (Json.bool false) = Json.bool true := by
    rw [hd3, get_pref_set_pref_ne _ _ _ _ _ (by decide), get_pref_set_pref_self]
  have hruns : get_pref d3 "runs_without_logs_click" (Json.num 0) = Json.num 0 := by
    rw [hd3, get_pref_set_pref_self]
  have hnag : maybe_show_logs_nag d3 = (d3, Except.ok none) :=
    nag_eq_of_clicked d3 (by rw [hclicked]; rfl) 0 hruns
  have hfix : run_event_doc d3 = d3 := by rw [run_event_doc, hnag]
  refine ⟨fun n => Function.iterate_fixed hfix n, fun n => ?_⟩
  rw [Function.iterate_fixed hfix n, hnag]

/-- C1: starting from the persisted state `run_count=0, acknowledged=false,
suppressed=false`, twenty run-event calls emit no popup on runs 1-4, 6-9,
11-14 and 16-19, the auto-dismissing soft reminder exactly once at run 5, and
the strong reminder (manual dismissal, with a "Do not show again" control)
exactly at runs 10, 15 and 20. -/
theorem scheduler_escalation_trace :
    (List.range 20).map (fun k => popupAtCall (k + 1)) =
      [Except.ok none, .ok none, .ok none, .ok none, .ok (some softReminder),
       .ok none, .ok none, .ok none, .ok none, .ok (some strongReminder),
       .ok none, .ok none, .ok none, .ok none, .ok (some strongReminder),
       .ok none, .ok none, .ok none, .ok none, .ok (some strongReminder)] ∧
    softReminder.autoDismisses = true ∧
    softReminder.includeDontShow = false ∧
    strongReminder.autoDismisses = false ∧
    strongReminder.includeDontShow = true :=
  ⟨rfl, rfl, rfl, rfl, rfl⟩

set_option maxRecDepth 8000 in
/-- C2 counterexample: `on_never_again` after the run-10 strong reminder does
stop the popups, but the persisted `run_count` does NOT keep incrementing —
ten further run-event calls leave it at 10, not 20 as the claim requires. -/
theorem suppress_freezes_run_count :
    get_pref (run_event_doc^[10] (on_never_again (nag_trace 10)))
        "runs_without_logs_click" (Json.num 0) = Json.num 10 ∧
    get_pref (run_event_doc^[10] (on_never_again (nag_trace 10)))
        "runs_without_logs_click" (Json.num 0) ≠ Json.num 20 := by
  have h10 : get_pref (run_event_doc^[10] (on_never_again (nag_trace 10)))
      "runs_without_logs_click" (Json.num 0) = Json.num 10 := by rfl
  refine ⟨h10, ?_⟩
  rw [h10]
  intro hc
  exact absurd (Json.num.inj hc) (by norm_num)

/-- C2 (amended): after `on_never_again` sets `suppressed=true`, every
subsequent run-event call emits no popup and leaves the whole document
unchanged — `run_count` stays at its value rather than incrementing, and
`acknowledged` remains whatever it was (false in the scenario). -/
theorem suppress_latches (d : Doc) :
    (∀ n, run_event_doc^[n] (on_never_again d) = on_never_again d) ∧
    (∀ n, (maybe_show_logs_nag (run_event_doc^[n] (on_never_again d))).2 =
      Except.ok none) ∧
    get_pref (on_never_again d) "logs_clicked_once" (Json.bool false) =
      get_pref d "logs_clicked_once" (Json.bool false) ∧
    get_pref (on_never_again d) "runs_without_logs_click" (Json.num 0) =
      get_pref d "runs_without_logs_click" (Json.num 0) := by
  have hs : (get_pref (on_never_again d) "suppress_logs_nag" (Json.bool false)).pyBool
      = true := by
    simp [on_never_again, get_pref_set_pref_self, Json.pyBool]
  have hfix : run_event_doc (on_never_again d) = on_never_again d := by
    rw [run_event_doc, nag_eq_of_suppressed _ hs]
  refine ⟨fun n => Function.iterate_fixed hfix n, fun n => ?_, ?_, ?_⟩
  · rw [Function.iterate_fixed hfix n, nag_eq_of_suppressed _ hs]
  · exact get_pref_set_pref_ne d "suppress_logs_nag" "logs_clicked_once"
      (Json.bool true) (Json.bool false) (by decide)
  · exact get_pref_set_pref_ne d "suppress_logs_nag" "runs_without_logs_click"
      (Json.bool true) (Json.num 0) (by decide)

/-- C8: when the persisted state has `acknowledged` (`logs_clicked_once`) or
`suppressed` (`suppress_logs_nag`) set, a run-event call changes no persisted
key — the document is returned untouched, so in particular `run_count` is not
incremented — and no popup is emitted. -/
theorem run_event_noop_when_latched (d : Doc)
    (h : (get_pref d "suppress_logs_nag" (Json.bool false)).pyBool = true ∨
         (get_pref d "logs_clicked_once" (Json.bool false)).pyBool = true) :
    (maybe_show_logs_nag d).1 = d ∧
      ∀ p, (maybe_show_logs_nag d).2 = Except.ok p → p = none :=
  nag_noop_of_latched d h

/-- Witness for `run_event_noop_when_latched` at a concrete suppressed
document. -/
theorem run_event_noop_when_latched_witness :
    (maybe_show_logs_nag [("suppress_logs_nag", Json.bool true)]).1 =
      [("suppress_logs_nag", Json.bool true)] :=
  (run_event_noop_when_latched [("suppress_logs_nag", Json.bool true)] (Or.inl rfl)).1

/-- C4: the acknowledge-event handler (`_on_toggle_logs`) sets
`acknowledged=true` (`logs_clicked_once`) and resets the persisted
`run_count` (`runs_without_logs_click`) to 0, shows its informational popover
exactly on the first fire (latched by the same flag: a second fire shows
nothing), and afterwards the run-event handler is permanently inert — the
document is a fixed point of arbitrarily many run events and none of them
emits a popup. All of this is a function of the persisted document alone, so
it holds identically across restarts. -/
theorem acknowledge_latches (val : Bool) (d : Doc)
    (h : (get_pref d "logs_clicked_once" (Json.bool false)).pyBool = false) :
    (on_toggle_logs val d).2 = true ∧
    get_pref (on_toggle_logs val d).1 "logs_clicked_once" (Json.bool false) =
      Json.bool true ∧
    get_pref (on_toggle_logs val d).1 "runs_without_logs_click" (Json.num 0) =
      Json.num 0 ∧
    (∀ val2, (on_toggle_logs val2 (on_toggle_logs val d).1).2 = false) ∧
    (∀ n, run_event_doc^[n] (on_toggle_logs val d).1 = (on_toggle_logs val d).1) ∧
    (∀ n, (maybe_show_logs_nag (run_event_doc^[n] (on_toggle_logs val d).1)).2 =
      Except.ok none) := by
  obtain ⟨hiter, hquiet⟩ := toggle_then_run_events_inert val d h
  rw [on_toggle_logs_of_not_clicked val d h] at *
  set d3 := set_pref (set_pref (set_pref d "include_logs" (Json.bool val))
      "logs_clicked_once" (Json.bool true)) "runs_without_logs_click" (Json.num 0) with hd3
  have hclicked : get_pref d3 "logs_clicked_once" (Json.bool false) = Json.bool true := by
    rw [hd3, get_pref_set_pref_ne _ _ _ _ _ (by decide), get_pref_set_pref_self]
  have hruns : get_pref d3 "runs_without_logs_click" (Json.num 0) = Json.num 0 := by
    rw [hd3, get_pref_set_pref_self]
  refine ⟨rfl, hclicked, hruns, fun val2 => ?_, hiter, hquiet⟩
  rw [on_toggle_logs_of_clicked val2 d3 (by rw [hclicked]; rfl)]

/-- Witness for `acknowledge_latches` at the empty (fresh) document. -/
theorem acknowledge_latches_witness :
    (on_toggle_logs true []).2 = true ∧
    get_pref (on_toggle_logs true []).1 "runs_without_logs_click" (Json.num 0) =
      Json.num 0 :=
  ⟨(acknowledge_latches true [] rfl).1, (acknowledge_latches true [] rfl).2.2.1⟩

/-- C10: toggling the Logs checkbox in either direction — here unchecking it,
`val = false`, which also persists `include_logs=false` — counts as the
acknowledging action: the first such toggle sets `logs_clicked_once=true`,
resets `runs_without_logs_click` to 0, and permanently silences all future
run-event reminders even though logging was just turned off. -/
theorem toggle_off_acknowledges (d : Doc)
    (h : (get_pref d "logs_clicked_once" (Json.bool false)).pyBool = false) :
    (on_toggle_logs false d).2 = true ∧
    get_pref (on_toggle_logs false d).1 "logs_clicked_once" (Json.bool false) =
      Json.bool true ∧
    get_pref (on_toggle_logs false d).1 "runs_without_logs_click" (Json.num 0) =
      Json.num 0 ∧
    get_pref (on_toggle_logs false d).1 "include_logs" (Json.bool true) =
      Json.bool false ∧
    (∀ n, run_event_doc^[n] (on_toggle_logs false d).1 = (on_toggle_logs false d).1) ∧
    (∀ n, (maybe_show_logs_nag (run_event_doc^[n] (on_toggle_logs false d).1)).2 =
      Except.ok none) := by
  obtain ⟨hiter, hquiet⟩ := toggle_then_run_events_inert false d h
  rw [on_toggle_logs_of_not_clicked false d h] at *
  set d3 := set_pref (set_pref (set_pref d "include_logs" (Json.bool false))
      "logs_clicked_once" (Json.bool true)) "runs_without_logs_click" (Json.num 0) with hd3
  have hclicked : get_pref d3 "logs_clicked_once" (Json.bool false) = Json.bool true := by
    rw [hd3, get_pref_set_pref_ne _ _ _ _ _ (by decide), get_pref_set_pref_self]
  have hruns : get_pref d3 "runs_without_logs_click" (Json.num 0) = Json.num 0 := by
    rw [hd3, get_pref_set_pref_self]
  have hinc : get_pref d3 "include_logs" (Json.bool true) = Json.bool false := by
    rw [hd3, get_pref_set_pref_ne _ _ _ _ _ (by decide),
      get_pref_set_pref_ne _ _ _ _ _ (by decide), get_pref_set_pref_self]
  exact ⟨rfl, hclicked, hruns, hinc, hiter, hquiet⟩

/-- Witness for `toggle_off_acknowledges` at the empty (fresh) document. -/
theorem toggle_off_acknowledges_witness :
    (on_toggle_logs false []).2 = true ∧
    get_pref (on_toggle_logs false []).1 "include_logs" (Json.bool true) =
      Json.bool false :=
  ⟨(toggle_off_acknowledges [] rfl).1, (toggle_off_acknowledges [] rfl).2.2.2.1⟩

/-- C5: for every save call, under any induced failure of serialization
(`json.dump`) or of the atomic replace (`os.replace`), the `finally:` block
removes the temporary file before the error propagates and the original
target file is unmodified; and after any call, success or failure, no
temporary file remains in the target directory. -/
theorem save_cleanup_and_preserves_target (fail : SaveFailure) (prefs : Doc)
    (target : FileContent) :
    (save_prefs_json fail prefs target).tempRemains = false ∧
    ((save_prefs_json fail prefs target).outcome = Except.error () →
      (save_prefs_json fail prefs target).target = target) := by
  unfold save_prefs_json
  by_cases hd : fail.dumpFails <;> by_cases hr : fail.replaceFails <;> simp [hd, hr]

/-- Witness for `save_cleanup_and_preserves_target` at a concrete failing
dump over an existing target file. -/
theorem save_cleanup_witness :
    (save_prefs_json ⟨true, false⟩ [] (FileContent.json (Json.obj []))).tempRemains
      = false ∧
    (save_prefs_json ⟨true, false⟩ [] (FileContent.json (Json.obj []))).target =
      FileContent.json (Json.obj []) :=
  ⟨(save_cleanup_and_preserves_target ⟨true, false⟩ [] (FileContent.json (Json.obj []))).1,
   (save_cleanup_and_preserves_target ⟨true, false⟩ [] (FileContent.json (Json.obj []))).2 rfl⟩

/-- C6: `_load_prefs_json` never raises (it is a total function of the file
content — the bare `except` absorbs the read and parse failures) and returns
the empty mapping when the file is absent, unreadable, invalid JSON, or valid
JSON that is not an object, and the parsed object otherwise. -/
theorem load_contract (c : FileContent) :
    load_prefs_json c =
      match c with
      | .json (.obj fields) => fields
      | _ => [] := by
  cases c with
  | absent => rfl
  | unreadable => rfl
  | invalid => rfl
  | json j => cases j <;> rfl

/-- C7: for every JSON-safe document `D`, a successful `save` followed by
`load` returns a document equal to `D` (round trip of the save/load pair,
independent of what was previously stored at the target). -/
theorem save_load_round_trip (D : Doc) (target : FileContent) :
    load_prefs_json (save_prefs_json ⟨false, false⟩ D target).target = D := rfl

theorem load_json_obj (fields : Doc) :
    load_prefs_json (FileContent.json (Json.obj fields)) = fields := rfl

/-- C9: the read-modify-write mutation performed by `SettingsDialog._apply`
(load, set the single key `"settings"`, save) preserves every other top-level
key of the loaded document — known or unknown — both in presence and in
value, under any save outcome. -/
theorem settings_apply_preserves_other_keys (fail : SaveFailure) (payload : Doc)
    (target : FileContent) (k : String) (h : k ≠ "settings") :
    Doc.find (load_prefs_json (settings_dialog_apply_persist fail payload target).target) k
      = Doc.find (load_prefs_json target) k := by
  unfold settings_dialog_apply_persist save_prefs_json
  by_cases hd : fail.dumpFails <;> by_cases hr : fail.replaceFails <;>
    simp [hd, hr]
  rw [load_json_obj, Doc.find_insert_ne _ "settings" k (Json.obj payload) h]
  cases hEmpty : (load_prefs_json target).isEmpty with
  | false => simp [hEmpty]
  | true => simp [hEmpty, List.isEmpty_iff.mp hEmpty]

/-- Witness for `settings_apply_preserves_other_keys`: an unknown top-level
key survives, with its value, a settings-snapshot write. -/
theorem settings_apply_preserves_other_keys_witness :
    Doc.find (load_prefs_json (settings_dialog_apply_persist ⟨false, false⟩
        [("LOG_DETAIL", Json.str "DEBUG")]
        (FileContent.json (Json.obj [("unknown_key", Json.num 7)]))).target)
      "unknown_key" = some (Json.num 7) :=
  Eq.trans
    (settings_apply_preserves_other_keys ⟨false, false⟩
      [("LOG_DETAIL", Json.str "DEBUG")]
      (FileContent.json (Json.obj [("unknown_key", Json.num 7)]))
      "unknown_key" (by decide))
    rfl

/-- C3 (code bug): the startup settings-restore
(`_apply_settings_from_prefs_on_startup`) applies a key that is NOT in the
fixed allow-list `WHITELIST` onto the configuration — the loop `setattr`s
every key found under `settings` with no allow-list check, contradicting its
own comment "only set known, safe keys to avoid surprises" and the claimed
contract that non-allow-listed keys are ignored. -/
theorem startup_restore_applies_unlisted_key :
    WHITELIST.contains "EVIL_KEY" = false ∧
    apply_settings_from_prefs_on_startup
        [("settings", Json.obj [("EVIL_KEY", Json.bool true)])] [] =
      Except.ok [("EVIL_KEY", Json.bool true)] :=
  ⟨rfl, rfl⟩
